import Mathlib

/-!
Shallow embedding of `file_organizer.py` (FILEORGANIZER repository).

Pure fragments of the Python source become Lean functions; the stateful
fragments (filesystem moves, the JSON ledger file, the organize pass) become
explicit state passing.  Exceptions become `Option` results.  Python dicts
are association lists with unique keys kept in insertion order, which is
exactly the observable behaviour of `dict` (`update` replaces the value of
an existing key in place and appends a fresh key at the end).
-/

namespace FileOrganizer

/-- Errors raised by a move attempt, as distinguished by `categorize_error`:
Python's `PermissionError`, `FileNotFoundError`, and every other exception. -/
inductive MoveError
| permissionError
| fileNotFoundError
| otherError
deriving DecidableEq

/-- Embeds `categorize_error` (file_organizer.py lines 76-91). -/
def categorize_error : MoveError → String
| MoveError.permissionError => "recoverable"
| MoveError.fileNotFoundError => "non_recoverable"
| MoveError.otherError => "unknown"

/-- Outcome of one `os.rename` attempt. -/
inductive MoveOutcome
| success
| failure (e : MoveError)
deriving DecidableEq

/-- Observable result of `retry_move_file`: the returned boolean, the number of
rename attempts performed, and the number of `alert_user` calls. -/
structure RetryResult where
  moved : Bool
  attempts : Nat
  alerts : Nat
deriving DecidableEq

/-- The `while attempt < retries` loop of `retry_move_file` (lines 112-137).
`outcome n` is the result of the rename attempt made when `attempt = n`;
`fuel = retries - attempt` counts the remaining loop iterations.  Falling out
of the loop logs, alerts once and returns `False`; a success returns `True`
inside the loop; a non-recoverable error returns `False` inside the loop
without alerting; recoverable and unknown errors increment `attempt` and
retry. -/
def retryGo (outcome : Nat → MoveOutcome) (attempt : Nat) : Nat → RetryResult
| 0 => { moved := false, attempts := 0, alerts := 1 }
| fuel + 1 =>
  match outcome attempt with
  | MoveOutcome.success => { moved := true, attempts := 1, alerts := 0 }
  | MoveOutcome.failure e =>
    if categorize_error e = "non_recoverable" then
      { moved := false, attempts := 1, alerts := 0 }
    else
      let r := retryGo outcome (attempt + 1) fuel
      { moved := r.moved, attempts := r.attempts + 1, alerts := r.alerts }

/-- Embeds `retry_move_file(source, destination, retries, delay)`:
the loop starts with `attempt = 0` and runs while `attempt < retries`. -/
def retry_move_file (outcome : Nat → MoveOutcome) (retries : Nat) : RetryResult :=
  retryGo outcome 0 retries

/-- The built-in `EXTENSIONS` table (lines 12-53), in source order; each entry
is one tuple of extensions paired with its folder name. -/
def EXTENSIONS : List (List String × String) :=
  [ ([".stl", ".obj", ".fbx", ".blend", ".dae", ".3ds", ".ply"], "3DModels"),
    ([".jpg", ".jpeg", ".png", ".gif", ".bmp", ".tiff", ".svg", ".heic", ".webp"], "Images"),
    ([".mp4", ".mkv", ".mov", ".avi", ".wmv", ".flv", ".webm", ".mpeg"], "Videos"),
    ([".mp3", ".wav", ".flac", ".aac", ".ogg", ".m4a", ".wma", ".aiff"], "Audio"),
    ([".doc", ".docx", ".pdf", ".txt", ".rtf", ".odt", ".tex", ".md"], "Documents"),
    ([".xlsx", ".xls", ".csv", ".ods"], "Spreadsheets"),
    ([".ppt", ".pptx", ".key", ".odp"], "Presentations"),
    ([".py", ".java", ".cpp", ".c", ".cs", ".js", ".ts", ".html", ".css", ".php",
      ".rb", ".swift", ".go", ".rs"], "Code"),
    ([".zip", ".rar", ".7z", ".tar", ".gz", ".bz2", ".xz"], "Archives"),
    ([".exe", ".msi", ".sh", ".bat", ".apk", ".dmg"], "Executables"),
    ([".ttf", ".otf", ".woff", ".woff2"], "Fonts"),
    ([".epub", ".mobi", ".azw", ".azw3"], "Ebooks"),
    ([".dwg", ".dxf"], "CAD"),
    ([".iso", ".img"], "DiskImages"),
    ([".sln", ".log", ".cfg", ".ini", ".bak"], "Others") ]

/-- Embeds `get_folder_name(extension, extensions_map)` (lines 284-301):
first group containing the extension wins, fallback is "Others". -/
def get_folder_name (extension : String) : List (List String × String) → String
| [] => "Others"
| (ext_group, folder_name) :: rest =>
  if extension ∈ ext_group then folder_name else get_folder_name extension rest

/-- Python `dict.get`: the value stored under `key`, if any.  Association
lists model dicts, so the first (unique) matching key wins. -/
def dictGet : List (String × String) → String → Option String
| [], _ => none
| (k, v) :: rest, key => if k = key then some v else dictGet rest key

/-- Python `dict` upsert, as performed by `data.update({key: value})`:
an existing key keeps its position and gets the new value, a fresh key is
appended at the end. -/
def dict_update : List (String × String) → String → String → List (String × String)
| [], key, value => [(key, value)]
| (k, v) :: rest, key, value =>
  if k = key then (k, value) :: rest else (k, v) :: dict_update rest key value

/-- Embeds the folder choice of `organize_files` (line 323):
`custom_rules.get(file_extension) or get_folder_name(file_extension, EXTENSIONS)`.
Python `or` falls through on a falsy left operand, and the falsy strings are
exactly "" (a missing key gives `None`, also falsy). -/
def classify (extension : String) (custom_rules : List (String × String)) : String :=
  match dictGet custom_rules extension with
  | none => get_folder_name extension EXTENSIONS
  | some s => if s = "" then get_folder_name extension EXTENSIONS else s

/-- All category names a built-in lookup can produce: the table's folder
names plus the fallback "Others". -/
def builtinCategories : List String := EXTENSIONS.map Prod.snd ++ ["Others"]

/-- Embeds `log_movement(src, dest)` (lines 186-206) at the level of the
in-memory mapping: read the ledger, `update` it with the single pair
`src -> dest`, write it back. -/
def log_movement (data : List (String × String)) (src dest : String) :
    List (String × String) :=
  dict_update data src dest

/-- Opening brace character (written by code point to keep string literals
free of structural braces). -/
def lbrace : Char := Char.ofNat 123

/-- Closing brace character. -/
def rbrace : Char := Char.ofNat 125

/-- One serialized entry of `json.dump(data, log, indent=4)`:
four spaces, the quoted key, a colon and space, the quoted value.  The paths
the program stores contain no characters that JSON escapes, so quoting is
plain double quotes. -/
def jsonEntry (p : String × String) : List Char :=
  [' ', ' ', ' ', ' ', '"'] ++ p.fst.toList ++ ['"', ':', ' ', '"'] ++ p.snd.toList ++ ['"']

/-- Joins serialized entries with a comma and newline, as `indent=4` does. -/
def joinEntries : List (List Char) → List Char
| [] => []
| [x] => x
| x :: y :: rest => x ++ [',', '\n'] ++ joinEntries (y :: rest)

/-- The exact byte content `json.dump(data, log, indent=4)` produces for a
string-to-string dict: two braces for an empty dict, otherwise brace,
newline, the joined entries, newline, brace. -/
def serializeLedger : List (String × String) → List Char
| [] => [lbrace, rbrace]
| p :: rest =>
  [lbrace, '\n'] ++ joinEntries ((p :: rest).map jsonEntry) ++ ['\n', rbrace]

/-- File rewrite through a handle opened in mode r+ after `log.seek(0)`:
the new bytes overwrite the front of the old content, and any old bytes past
the end of the new content remain (the file is never truncated). -/
def overwriteSeekZero (old new : List Char) : List Char :=
  new ++ old.drop new.length

/-- Embeds `log_movement` (lines 198-206) at the level of the backing file's
bytes, for a file currently holding the serialization of `data`: the code
loads `data`, merges the pair, seeks to 0 and dumps the merged dict into the
same handle without truncating. -/
def log_movement_file (data : List (String × String)) (src dest : String) :
    List Char :=
  overwriteSeekZero (serializeLedger data) (serializeLedger (dict_update data src dest))

/-- Association list keyed by content digests, for the `hash_map` dict of
`organize_files`. -/
def natDictGet : List (Nat × String) → Nat → Option String
| [], _ => none
| (k, v) :: rest, key => if k = key then some v else natDictGet rest key

/-- Upsert into the digest map (`hash_map[file_hash] = file_path`). -/
def natDictUpdate : List (Nat × String) → Nat → String → List (Nat × String)
| [], key, value => [(key, value)]
| (k, v) :: rest, key, value =>
  if k = key then (k, value) :: rest else (k, v) :: natDictUpdate rest key value

/-- One file as seen by the organize pass: its full original path, its bare
filename, its lowercased extension, the result of `get_file_hash` on it
(`none` models the uncaught `IOError`), and the outcome of successive rename
attempts on it (attempt 0 is the one `shutil.move` the pass performs). -/
structure FileInfo where
  path : String
  name : String
  ext : String
  digest : Option Nat
  moveOutcome : Nat → MoveOutcome

/-- Mutable state threaded through one organize pass: the digest map, the
collected duplicate pairs, the persisted ledger, and the successful moves in
order. -/
structure OrganizeState where
  hashMap : List (Nat × String)
  duplicates : List (String × String)
  ledger : List (String × String)
  moved : List (String × String)
deriving DecidableEq

/-- The initial state of a pass. -/
def org0 : OrganizeState := { hashMap := [], duplicates := [], ledger := [], moved := [] }

/-- The per-file body of `organize_files` (lines 318-345).  The folder comes
from the custom rules with the built-in table as fallback; a failing
`get_file_hash` propagates (the call sits outside every `try`, so the whole
pass aborts: result `none`); a digest already seen appends a
(duplicate, original) pair and does not move the file; otherwise the digest
map is updated, one `shutil.move` to `directory/folder/filename` is
attempted, and only on its success is `log_movement` called; a failing move
is caught and only logged. -/
def processFile (directory : String) (custom_rules : List (String × String))
    (st : OrganizeState) (f : FileInfo) : Option OrganizeState :=
  let folder_name := classify f.ext custom_rules
  let target_folder := directory ++ "/" ++ folder_name
  match f.digest with
  | none => none
  | some file_hash =>
    match natDictGet st.hashMap file_hash with
    | some original =>
      some { st with duplicates := st.duplicates ++ [(f.path, original)] }
    | none =>
      let hashMap2 := natDictUpdate st.hashMap file_hash f.path
      let new_path := target_folder ++ "/" ++ f.name
      match f.moveOutcome 0 with
      | MoveOutcome.success =>
        some { st with hashMap := hashMap2,
                       ledger := log_movement st.ledger f.path new_path,
                       moved := st.moved ++ [(f.path, new_path)] }
      | MoveOutcome.failure _ => some { st with hashMap := hashMap2 }

/-- The scan loop of `organize_files` over the walked files, from a given
state; `none` means an uncaught exception aborted the pass. -/
def organizeScanFrom (directory : String) (custom_rules : List (String × String)) :
    OrganizeState → List FileInfo → Option OrganizeState
| st, [] => some st
| st, f :: rest =>
  match processFile directory custom_rules st f with
  | none => none
  | some st2 => organizeScanFrom directory custom_rules st2 rest

/-- Embeds the scan phase of `organize_files(directory)` (lines 304-345):
fold the per-file body over the files in walk order, starting from empty
state. -/
def organize_files (directory : String) (custom_rules : List (String × String))
    (files : List FileInfo) : Option OrganizeState :=
  organizeScanFrom directory custom_rules org0 files

/-- Does the first list match the second at its head? (character lists) -/
def leadMatch : List Char → List Char → Bool
| [], _ => true
| _ :: _, [] => false
| a :: as, b :: bs => a == b && leadMatch as bs

/-- Python's substring test `q in s` on character lists. -/
def hasSub (q : List Char) : List Char → Bool
| [] => leadMatch q []
| c :: rest => leadMatch q (c :: rest) || hasSub q rest

/-- Python `q in s` for strings. -/
def strIn (q s : String) : Bool := hasSub q.toList s.toList

/-- A filesystem abstracted as the list of existing file paths; `shutil.move`
on an existing source relocates it (the moved path joins the end of the
list), and on a missing source raises (result `none`). -/
def move_file (fs : List String) (src dest : String) : Option (List String) :=
  if src ∈ fs then some (fs.erase src ++ [dest]) else none

/-- One iteration of the undo loop (lines 234-240): `shutil.move(dest, src)`
inside `try`, every exception caught and only logged. -/
def undoStep (fs : List String) (p : String × String) : List String :=
  match move_file fs p.fst p.snd with
  | some fs2 => fs2
  | none => fs

/-- Result of `undo_selected_moves`: the filesystem and the rewritten ledger. -/
structure UndoResult where
  fs : List String
  ledger : List (String × String)
deriving DecidableEq

/-- Embeds `undo_selected_moves` (lines 209-247) given the ledger content
`data` and the query the user typed.  The code iterates `data.items()` as
`(dest, src)` pairs, so its `dest` is the stored key and its `src` the
stored value: it keeps the entries whose VALUE contains the query, runs
`shutil.move(key, value)` for each (exceptions caught), and rewrites the
ledger without the matched keys; with no match it returns before touching
anything. -/
def undo_selected_moves (fs : List String) (data : List (String × String))
    (directory_input : String) : UndoResult :=
  let matching_entries := data.filter (fun p => strIn directory_input p.snd)
  if matching_entries.isEmpty then { fs := fs, ledger := data }
  else
    let fs2 := matching_entries.foldl undoStep fs
    let remaining_data :=
      data.filter (fun p => !(matching_entries.any (fun q => q.fst == p.fst)))
    { fs := fs2, ledger := remaining_data }

/-- Concrete file for the duplicate-grouping scenario: first occurrence of
digest 7. -/
def f1 : FileInfo :=
  { path := "/d/a.jpg", name := "a.jpg", ext := ".jpg", digest := some 7,
    moveOutcome := fun _ => MoveOutcome.success }

/-- Concrete file with the distinct digest 8. -/
def f2 : FileInfo :=
  { path := "/d/b.txt", name := "b.txt", ext := ".txt", digest := some 8,
    moveOutcome := fun _ => MoveOutcome.success }

/-- Concrete file repeating digest 7, scanned last. -/
def f3 : FileInfo :=
  { path := "/d/c.jpg", name := "c.jpg", ext := ".jpg", digest := some 7,
    moveOutcome := fun _ => MoveOutcome.success }

/-- Concrete file whose first rename attempt fails with a recoverable
`PermissionError` and whose every later attempt would succeed. -/
def fRecoverFirst : FileInfo :=
  { path := "/f/x.jpg", name := "x.jpg", ext := ".jpg", digest := some 5,
    moveOutcome := fun n =>
      if n = 0 then MoveOutcome.failure MoveError.permissionError else MoveOutcome.success }

/-- Concrete file whose `get_file_hash` raises an `IOError`. -/
def fBadHash : FileInfo :=
  { path := "/d/x.bin", name := "x.bin", ext := ".bin", digest := none,
    moveOutcome := fun _ => MoveOutcome.success }

end FileOrganizer

namespace FileOrganizer

/-- Helper: the built-in lookup always lands in the table's folder names or
the fallback "Others". -/
theorem get_folder_name_mem (e : String) (l : List (List String × String)) :
    get_folder_name e l ∈ l.map Prod.snd ++ ["Others"] := by
  induction l with
  | nil => simp [get_folder_name]
  | cons p rest ih =>
    obtain ⟨g, n⟩ := p
    by_cases h : e ∈ g
    · simp [get_folder_name, h]
    · simp only [get_folder_name, if_neg h, List.map_cons, List.cons_append, List.mem_cons]
      exact Or.inr ih

/-- Helper: a dict upsert makes the written key map to the written value. -/
theorem dictGet_dict_update_self (data : List (String × String)) (k v : String) :
    dictGet (dict_update data k v) k = some v := by
  induction data with
  | nil => simp [dict_update, dictGet]
  | cons p rest ih =>
    obtain ⟨k0, v0⟩ := p
    by_cases h : k0 = k
    · simp [dict_update, h, dictGet]
    · simp [dict_update, h, dictGet, ih]

/-- Helper: the keys after an upsert are the old keys plus the written key. -/
theorem mem_keys_dict_update (x k v : String) (data : List (String × String)) :
    x ∈ (dict_update data k v).map Prod.fst ↔ x ∈ data.map Prod.fst ∨ x = k := by
  induction data with
  | nil => simp [dict_update]
  | cons p rest ih =>
    obtain ⟨k0, v0⟩ := p
    by_cases h : k0 = k
    · subst h
      simp [dict_update]
      tauto
    · simp [dict_update, h, ih]
      tauto

/-- Helper: a dict upsert preserves key uniqueness. -/
theorem nodup_keys_dict_update (data : List (String × String)) (k v : String)
    (h : (data.map Prod.fst).Nodup) :
    ((dict_update data k v).map Prod.fst).Nodup := by
  induction data with
  | nil => simp [dict_update]
  | cons p rest ih =>
    obtain ⟨k0, v0⟩ := p
    simp only [List.map_cons, List.nodup_cons] at h
    by_cases hk : k0 = k
    · subst hk
      have hu : dict_update ((k0, v0) :: rest) k0 v = (k0, v) :: rest := by
        simp [dict_update]
      rw [hu]
      simp only [List.map_cons, List.nodup_cons]
      exact h
    · simp only [dict_update, if_neg hk, List.map_cons, List.nodup_cons]
      refine ⟨?_, ih h.2⟩
      rw [mem_keys_dict_update]
      rintro (hmem | heq)
      · exact h.1 hmem
      · exact hk heq

/-- Helper: while every attempt fails with an error not classified
non-recoverable, the retry loop burns all its remaining iterations, returns
failure, and alerts once on the way out. -/
theorem retryGo_const_fail (outcome : Nat → MoveOutcome)
    (h : ∀ n, ∃ e, outcome n = MoveOutcome.failure e ∧
        categorize_error e ≠ "non_recoverable") :
    ∀ fuel attempt, retryGo outcome attempt fuel = ⟨false, fuel, 1⟩ := by
  intro fuel
  induction fuel with
  | zero => intro attempt; rfl
  | succ m ih =>
    intro attempt
    obtain ⟨e, he, hne⟩ := h attempt
    simp [retryGo, he, hne, ih (attempt + 1)]

/-- Claim C1 (code_bug evaluation).  After organizing moved "/d/a.jpg" to
"/d/Images/a.jpg" (file now at the new path, ledger holding that record),
the claim says an undo whose query matches the original path moves the file
back and removes the entry.  The code instead matches the query against the
stored value (the post-move path) and replays the forward move direction:
with query "/d/a.jpg" (the original path) nothing matches and nothing
changes, and with query "/d/Images" (matching the new path) the ledger entry
is removed but the file stays at "/d/Images/a.jpg" because the attempted
`shutil.move` runs from the already-vacated original path and fails. -/
theorem undo_round_trip_broken :
    undo_selected_moves ["/d/Images/a.jpg"] [("/d/a.jpg", "/d/Images/a.jpg")] "/d/a.jpg" =
      { fs := ["/d/Images/a.jpg"], ledger := [("/d/a.jpg", "/d/Images/a.jpg")] } ∧
    undo_selected_moves ["/d/Images/a.jpg"] [("/d/a.jpg", "/d/Images/a.jpg")] "/d/Images" =
      { fs := ["/d/Images/a.jpg"], ledger := [] } := by decide

/-- Claim C2 (counterexample).  The record appended for the move of
"/d/a.jpg" to "/d/Images/a.jpg" is keyed by the ORIGINAL path, not by the
destination as the claim states: looking the ledger up by the destination
finds nothing, while looking it up by the original path finds the
destination. -/
theorem ledger_key_direction_cex :
    dictGet (log_movement [] "/d/a.jpg" "/d/Images/a.jpg") "/d/Images/a.jpg" = none ∧
    dictGet (log_movement [] "/d/a.jpg" "/d/Images/a.jpg") "/d/a.jpg" =
      some "/d/Images/a.jpg" ∧
    ("/d/a.jpg" : String) ≠ "/d/Images/a.jpg" := by decide

/-- Claim C2 (amended).  The ledger is a mapping from ORIGINAL path to new
path: a record appended on a successful move has the pre-move path as its
key and the post-move path as its value, and key uniqueness is preserved by
every append. -/
theorem ledger_record_keyed_by_original (data : List (String × String)) (src dest : String)
    (h : (data.map Prod.fst).Nodup) :
    dictGet (log_movement data src dest) src = some dest ∧
    ((log_movement data src dest).map Prod.fst).Nodup :=
  ⟨dictGet_dict_update_self data src dest, nodup_keys_dict_update data src dest h⟩

/-- Witness for the amended C2 theorem at a concrete prior ledger. -/
theorem ledger_record_keyed_by_original_wit :
    dictGet (log_movement [("/x", "/y")] "/d/a.jpg" "/d/Images/a.jpg") "/d/a.jpg" =
      some "/d/Images/a.jpg" ∧
    ((log_movement [("/x", "/y")] "/d/a.jpg" "/d/Images/a.jpg").map Prod.fst).Nodup :=
  ledger_record_keyed_by_original [("/x", "/y")] "/d/a.jpg" "/d/Images/a.jpg" (by decide)

/-- Claim C3 (counterexample).  A non-duplicate file whose first rename
attempt fails recoverably and whose second attempt would succeed: the scan
leaves it unmoved with no movement record (only its digest is recorded),
while the bounded-retry policy with maxAttempts 3 applied to the same
attempt sequence would have moved it on the second attempt.  The organize
pass therefore does not move files through the retry policy. -/
theorem organize_move_without_retry_cex :
    organize_files "/d" [] [fRecoverFirst] =
      some { org0 with hashMap := [(5, "/f/x.jpg")] } ∧
    retry_move_file fRecoverFirst.moveOutcome 3 = ⟨true, 2, 0⟩ := by decide

/-- Claim C3 (amended).  The organize pass gives each non-duplicate file a
single unretried move attempt: if that one attempt fails, even recoverably,
the only state change is recording the file's digest (no movement record,
no retry, pass continues); a movement record for the destination
directory/category/filename is appended exactly when the single attempt
succeeds. -/
theorem organize_move_single_attempt (d : String) (rules : List (String × String))
    (st : OrganizeState) (f : FileInfo) (hsh : Nat)
    (hdig : f.digest = some hsh) (hnew : natDictGet st.hashMap hsh = none) :
    (∀ e, f.moveOutcome 0 = MoveOutcome.failure e →
      processFile d rules st f =
        some { st with hashMap := natDictUpdate st.hashMap hsh f.path }) ∧
    (f.moveOutcome 0 = MoveOutcome.success →
      processFile d rules st f =
        some { st with
          hashMap := natDictUpdate st.hashMap hsh f.path,
          ledger := log_movement st.ledger f.path
            (d ++ "/" ++ classify f.ext rules ++ "/" ++ f.name),
          moved := st.moved ++
            [(f.path, d ++ "/" ++ classify f.ext rules ++ "/" ++ f.name)] }) := by
  constructor
  · intro e hfail
    simp [processFile, hdig, hnew, hfail]
  · intro hok
    simp [processFile, hdig, hnew, hok]

/-- Witness for the amended C3 theorem on the concrete recoverable-failure file. -/
theorem organize_move_single_attempt_wit :
    (∀ e, fRecoverFirst.moveOutcome 0 = MoveOutcome.failure e →
      processFile "/d" [] org0 fRecoverFirst =
        some { org0 with hashMap := natDictUpdate org0.hashMap 5 fRecoverFirst.path }) ∧
    (fRecoverFirst.moveOutcome 0 = MoveOutcome.success →
      processFile "/d" [] org0 fRecoverFirst =
        some { org0 with
          hashMap := natDictUpdate org0.hashMap 5 fRecoverFirst.path,
          ledger := log_movement org0.ledger fRecoverFirst.path
            ("/d" ++ "/" ++ classify fRecoverFirst.ext [] ++ "/" ++ fRecoverFirst.name),
          moved := org0.moved ++
            [(fRecoverFirst.path,
              "/d" ++ "/" ++ classify fRecoverFirst.ext [] ++ "/" ++ fRecoverFirst.name)] }) :=
  organize_move_single_attempt "/d" [] org0 fRecoverFirst 5 rfl rfl

/-- Claim C4 (counterexample).  A pass over a file whose digest computation
raises followed by a healthy file does not skip the bad file and continue:
it aborts with no final state, whereas the healthy file alone is organized
normally.  The `get_file_hash` call sits outside every `try` block in
`organize_files`. -/
theorem digest_error_aborts_pass_cex :
    organize_files "/d" [] [fBadHash, f2] = none ∧
    organize_files "/d" [] [f2] =
      some { org0 with
        hashMap := [(8, "/d/b.txt")],
        ledger := [("/d/b.txt", "/d/Documents/b.txt")],
        moved := [("/d/b.txt", "/d/Documents/b.txt")] } := by decide

/-- Claim C4 (amended).  A digest read error on any scanned file aborts the
whole organize pass at that file: the uncaught exception propagates and the
remaining files are not processed. -/
theorem digest_error_aborts_pass (d : String) (rules : List (String × String))
    (st : OrganizeState) (f : FileInfo) (rest : List FileInfo)
    (h : f.digest = none) :
    organizeScanFrom d rules st (f :: rest) = none := by
  simp [organizeScanFrom, processFile, h]

/-- Witness for the amended C4 theorem on the concrete failing-digest file. -/
theorem digest_error_aborts_pass_wit :
    organizeScanFrom "/d" [] org0 [fBadHash, f2] = none :=
  digest_error_aborts_pass "/d" [] org0 fBadHash [f2] rfl

/-- Claim C5 (confirmed).  When every attempt fails with an error classified
recoverable or unknown, `retry_move_file` performs exactly `retries`
attempts, returns failure, and fires the operator alert exactly once. -/
theorem retry_exhaustion_alerts_once (outcome : Nat → MoveOutcome) (retries : Nat)
    (h : ∀ n, ∃ e, outcome n = MoveOutcome.failure e ∧
        categorize_error e ≠ "non_recoverable") :
    retry_move_file outcome retries = ⟨false, retries, 1⟩ :=
  retryGo_const_fail outcome h retries 0

/-- Witness for C5: a permanent `PermissionError` with the default 3 retries. -/
theorem retry_exhaustion_alerts_once_wit :
    retry_move_file (fun _ => MoveOutcome.failure MoveError.permissionError) 3 =
      ⟨false, 3, 1⟩ :=
  retry_exhaustion_alerts_once (fun _ => MoveOutcome.failure MoveError.permissionError) 3
    (fun _ => ⟨MoveError.permissionError, rfl, by decide⟩)

/-- Claim C6 (confirmed).  A first attempt failing with the non-recoverable
`FileNotFoundError` makes `retry_move_file` perform exactly one attempt and
return failure immediately, with no alert. -/
theorem nonrecoverable_single_attempt (outcome : Nat → MoveOutcome) (retries : Nat)
    (h0 : outcome 0 = MoveOutcome.failure MoveError.fileNotFoundError)
    (hr : 0 < retries) :
    retry_move_file outcome retries = ⟨false, 1, 0⟩ := by
  obtain ⟨m, rfl⟩ : ∃ m, retries = m + 1 := ⟨retries - 1, by omega⟩
  simp [retry_move_file, retryGo, h0, categorize_error]

/-- Witness for C6 with the default 3 retries. -/
theorem nonrecoverable_single_attempt_wit :
    retry_move_file (fun _ => MoveOutcome.failure MoveError.fileNotFoundError) 3 =
      ⟨false, 1, 0⟩ :=
  nonrecoverable_single_attempt
    (fun _ => MoveOutcome.failure MoveError.fileNotFoundError) 3 rfl (by decide)

/-- Claim C7 (counterexample).  A custom rule mapping ".jpg" to the category
"" is ignored: the Python `or` falls through on the falsy empty string and
the built-in result "Images" is returned, so the custom category is not
returned for every custom category value. -/
theorem classify_empty_custom_rule_cex :
    classify ".jpg" [(".jpg", "")] = "Images" ∧ ("Images" : String) ≠ "" := by decide

/-- Claim C7 (amended).  Classification is total: with no custom rules it
always lands in the built-in category names (which include the fallback
"Others"); and a custom rule for an extension overrides the built-in result
whenever its category value is a non-empty string. -/
theorem classify_total_and_override (e c : String) (rules : List (String × String))
    (hget : dictGet rules e = some c) (hne : c ≠ "") :
    classify e [] ∈ builtinCategories ∧ classify e rules = c := by
  constructor
  · show get_folder_name e EXTENSIONS ∈ EXTENSIONS.map Prod.snd ++ ["Others"]
    exact get_folder_name_mem e EXTENSIONS
  · simp [classify, hget, hne]

/-- Witness for the amended C7 theorem at a concrete non-empty custom rule. -/
theorem classify_total_and_override_wit :
    classify ".jpg" [] ∈ builtinCategories ∧
    classify ".jpg" [(".jpg", "MyPics")] = "MyPics" :=
  classify_total_and_override ".jpg" "MyPics" [(".jpg", "MyPics")] (by decide) (by decide)

/-- Claim C8 (confirmed).  Scanning F1, F2, F3 in that order with
digest(F1) = digest(F3) = 7 and digest(F2) = 8 produces exactly one
duplicate pair (F3's path, F1's original path); F1 and F2 are each moved to
their category folders with a ledger record; F3 is neither moved nor
recorded during the scan and is left to the batch duplicate disposition. -/
theorem duplicate_grouping_scan :
    organize_files "/d" [] [f1, f2, f3] =
      some {
        hashMap := [(7, "/d/a.jpg"), (8, "/d/b.txt")],
        duplicates := [("/d/c.jpg", "/d/a.jpg")],
        ledger := [("/d/a.jpg", "/d/Images/a.jpg"), ("/d/b.txt", "/d/Documents/b.txt")],
        moved := [("/d/a.jpg", "/d/Images/a.jpg"), ("/d/b.txt", "/d/Documents/b.txt")] } := by
  decide

/-- Claim C9 (code_bug evaluation).  Recording the pair "/a" to "/b" over a
prior ledger whose single entry maps "/a" to the longer path
"/dest/longpath" leaves the backing file different from the serialization of
the merged mapping: the handle is opened r+, seeked to 0 and written without
truncation, so the file keeps its old length and the tail of the old, longer
serialization survives as stale bytes after the new one. -/
theorem log_movement_stale_bytes :
    log_movement_file [("/a", "/dest/longpath")] "/a" "/b" ≠
      serializeLedger (dict_update [("/a", "/dest/longpath")] "/a" "/b") ∧
    (log_movement_file [("/a", "/dest/longpath")] "/a" "/b").length =
      (serializeLedger [("/a", "/dest/longpath")]).length := by decide

/-- Claim C10 (confirmed).  With retries set to zero the loop body never
runs: no move attempt is made, the function returns failure, and the alert
still fires exactly once on the way out. -/
theorem retry_zero_attempts_alerts_once (outcome : Nat → MoveOutcome) :
    retry_move_file outcome 0 = ⟨false, 0, 1⟩ := rfl

end FileOrganizer
